import Mathlib

/-
Verification of the 3PC message-recovery handlers of
plenum/server/consensus/message_request/message_handlers.py
(classes ThreePhaseMessagesHandler, PreprepareHandler, PrepareHandler,
CommitHandler).

Shallow embedding conventions:
* Python ints are Lean Int.
* A value read from a wire-level params dict via params.get(name) can be an
  int, a string, or None (missing key); it is modelled by PyVal.
* The per-handler dict requested_messages, mapping a 3PC key to an optional
  stash triple, is modelled by an association list whose keys are unique
  (insertion happens only when the key is absent, and the only other
  mutation is a wholesale clear).
* Python exceptions that can escape the translated methods are modelled by
  PyError; methods that can raise return Except PyError.
* The handler kinds (subclasses) are modelled by the MsgKind parameter;
  behaviour that differs per subclass (msg_cls, get_reply, the
  PreprepareHandler override of validate_message_rep) dispatches on it.
* Log-message strings carried by rejection results and exceptions are
  abstracted into the inductive types RejectReason and ExcReason; each
  constructor is documented with the source string it stands for.
-/

namespace MsgReq

/-- A wire value obtained from a Python dict via .get: either an int, a
string, or None.  (Other payload types behave like vstr for every
operation this code performs on them: they are not ints and never compare
equal to an int.) -/
inductive PyVal where
  | vnone : PyVal
  | vint : Int → PyVal
  | vstr : String → PyVal
deriving DecidableEq

/-- Python equality between a wire value and an int: only an equal int
compares equal; None and strings never do. -/
def pyEqInt : PyVal → Int → Bool
  | .vint j, i => j == i
  | _, _ => false

/-- Python isinstance(x, int) on a wire value. -/
def pyIsInt : PyVal → Bool
  | .vint _ => true
  | _ => false

/-- Python x > 0 on a wire value, evaluated only after an isinstance(int)
guard in the source; false on non-ints (the guard short-circuits first). -/
def pyGtZero : PyVal → Bool
  | .vint n => decide (0 < n)
  | _ => false

/-- The three message kinds: the three concrete subclasses of
ThreePhaseMessagesHandler, i.e. the value of msg_cls. -/
inductive MsgKind where
  | prePrepare : MsgKind
  | prepare : MsgKind
  | commit : MsgKind
deriving DecidableEq

/-- The fields of a raw embedded message dict (MessageRep.msg) that this
code reads after materialization: instId, viewNo, ppSeqNo for all kinds,
and the content triple digest, stateRootHash, txnRootHash, which the
source reads only for PrePrepare and Prepare messages (Commit messages do
not carry them and the code never touches them for Commit). -/
structure MsgFields where
  instId : Int
  viewNo : Int
  ppSeqNo : Int
  digest : String
  stateRootHash : String
  txnRootHash : String
deriving DecidableEq

/-- A materialized protocol message: msg_cls(**msg) always yields an
instance of the handler kind's class, so the kind is stamped by the
constructor call. -/
structure ThreePCMsg where
  kind : MsgKind
  instId : Int
  viewNo : Int
  ppSeqNo : Int
  digest : String
  stateRootHash : String
  txnRootHash : String
deriving DecidableEq

/-- A stash binding: the (digest, state root, txn root) triple optionally
recorded with a pending request. -/
def StashData : Type := String × String × String

instance : DecidableEq StashData := by
  unfold StashData
  infer_instance

/-- An entry of ConsensusSharedData.preprepared; the source reads only its
view_no and pp_seq_no attributes. -/
structure BatchID where
  view_no : Int
  pp_seq_no : Int
deriving DecidableEq

/-- A vote-tally entry for one 3PC key. Modelled from the spec:
plenum/server/models.py (the Prepares and Commits collections) is not
under src/.  Spec section 3 describes the prepare and commit stores as
keyed by 3PC key, "holding the message plus the set of replica identities
that have voted for it, queryable as has vote from replica X". -/
structure VoteTally where
  msg : ThreePCMsg
  voters : List String

/-- Modelled from the spec: the hasPrepareFrom and hasCommitFrom
predicates of the vote-tally collections (plenum/server/models.py, not
under src/): whether the given replica identity has voted in this tally. -/
def hasVoteFrom (t : VoteTally) (name : String) : Bool :=
  decide (name ∈ t.voters)

/-- Modelled from the spec: ConsensusSharedData
(plenum/server/consensus/consensus_shared_data.py) is not under src/.
Spec section 3 "Shared Consensus State": the local replica's instance id,
current view number, replica name, last-ordered 3PC key, the
"sent pre-prepares" store keyed by 3PC key, the "pre-prepared" candidate
set, and the prepare and commit vote tallies keyed by 3PC key.  The
keyed stores are modelled as lookup functions on (Int, Int) keys; a
lookup with a non-int-pair key (possible in Python) is handled at the
call sites, where it returns nothing. -/
structure ConsensusSharedData where
  inst_id : Int
  view_no : Int
  name : String
  last_ordered_3pc : Int × Int
  sent_preprepares : (Int × Int) → Option ThreePCMsg
  preprepared : List BatchID
  prepares : (Int × Int) → Option VoteTally
  commits : (Int × Int) → Option VoteTally

/-- The requested_messages dict of one handler instance. -/
def RequestedMessages : Type := List ((Int × Int) × Option StashData)

/-- Dict lookup requested_messages.get(key): the value stored at the key,
if present.  The outer Option is presence of the key, the inner Option is
the stored stash binding. -/
def rmGet : RequestedMessages → (Int × Int) → Option (Option StashData)
  | [], _ => none
  | (k2, d) :: t, k => if k2 = k then some d else rmGet t k

/-- Dict membership key in requested_messages. -/
def rmContains (t : RequestedMessages) (k : Int × Int) : Bool :=
  (rmGet t k).isSome

/-- The mutable state of one handler instance: the shared consensus data
reference and its own requested_messages dict. -/
structure HandlerState where
  data : ConsensusSharedData
  requested_messages : RequestedMessages

/-- The reason strings carried by IncorrectMessageForHandlingException. -/
inductive ExcReason where
  /-- "replied message has invalid structure" -/
  | invalidStructure : ExcReason
  /-- "replied message does not satisfy query criteria" -/
  | queryCriteria : ExcReason
  /-- "cannot serve request" -/
  | cannotServe : ExcReason
  /-- "3PC ... does not have expected state ..." -/
  | unexpectedState : ExcReason
deriving DecidableEq

/-- Python exceptions that can escape the translated methods. -/
inductive PyError where
  | typeError : PyError
  | attributeError : PyError
  | mismatchedMessageReply : PyError
  | incorrectMessage : ExcReason → PyError
deriving DecidableEq

/-- The reason strings of the (False, reason) results of
validate_message_rep. -/
inductive RejectReason where
  /-- "received null" -/
  | receivedNull : RejectReason
  /-- "Had either not requested this msg or already received the msg for ..." -/
  | notRequested : RejectReason
  /-- "already ordered msg ..." -/
  | alreadyOrdered : RejectReason
  /-- "already received msg ..." (PreprepareHandler override) -/
  | alreadyReceived : RejectReason
deriving DecidableEq

/-- The request payload returned by prepare_msg_to_request: a dict with
the INST_ID, VIEW_NO and PP_SEQ_NO fields. -/
structure ReqPayload where
  inst_id : Int
  view_no : Int
  pp_seq_no : Int
deriving DecidableEq

/-- The params of a MessageReq or MessageRep envelope, projected through
msg.params.get(name) for the three field names of
ThreePhaseMessagesHandler.fields; a missing key yields PyVal.vnone. -/
structure ReqParams where
  inst_id : PyVal
  view_no : PyVal
  pp_seq_no : PyVal
deriving DecidableEq

/-- A MessageRep envelope as this code reads it: the params dict
projections and the raw embedded message dict msg.msg.  The raw dict is
modelled as Option MsgFields: none stands for a dict from which
msg_cls(**msg) cannot construct a message (the constructor call raises
TypeError), some f for a dict yielding a message with the given fields. -/
structure MessageRep where
  params : ReqParams
  msg : Option MsgFields

/-- Modelled from the spec: compare_3PC_keys lives in
plenum/common/util.py, which is not under src/.  Spec section 3: a 3PC key
is a (view number, sequence number) pair, "Totally ordered"; section 4.1
step 3 together with _has_already_ordered shows the source tests
compare_3PC_keys(key, last_ordered) >= 0 for key <= last_ordered, so the
comparison returns a positive value when the first key is strictly
smaller in the lexicographic order, zero when equal, and a negative value
when it is strictly greater. -/
def compare_3PC_keys (k1 k2 : Int × Int) : Int :=
  if k1.1 = k2.1 then k2.2 - k1.2 else k2.1 - k1.1

/-- ThreePhaseMessagesHandler._has_already_ordered. -/
def has_already_ordered (d : ConsensusSharedData) (view_no pp_seq_no : Int) : Bool :=
  decide (0 ≤ compare_3PC_keys (view_no, pp_seq_no) d.last_ordered_3pc)

/-- ThreePhaseMessagesHandler._validate: the request-side validity check. -/
def validate (d : ConsensusSharedData) (inst_id view_no pp_seq_no : PyVal) : Bool :=
  pyEqInt inst_id d.inst_id && pyEqInt view_no d.view_no &&
    pyIsInt pp_seq_no && pyGtZero pp_seq_no

/-- ThreePhaseMessagesHandler._create: message = self.msg_cls(**msg) (a
raw dict of none raises TypeError), then the constructed message's own
instId, viewNo, ppSeqNo are compared with the kwargs, raising
MismatchedMessageReplyException on any difference. -/
def create (kind : MsgKind) (raw : Option MsgFields)
    (inst_id view_no pp_seq_no : PyVal) : Except PyError ThreePCMsg :=
  match raw with
  | none => .error .typeError
  | some f =>
      if !pyEqInt inst_id f.instId || !pyEqInt view_no f.viewNo
          || !pyEqInt pp_seq_no f.ppSeqNo then
        .error .mismatchedMessageReply
      else
        .ok ⟨kind, f.instId, f.viewNo, f.ppSeqNo,
             f.digest, f.stateRootHash, f.txnRootHash⟩

/-- ThreePhaseMessagesHandler._validate_message_rep, the base-class
method as defined (one positional msg argument): returns a
(result, reason) pair or raises IncorrectMessageForHandlingException on a
stash-binding mismatch. -/
def validate_message_rep_base (st : HandlerState) (msg : Option ThreePCMsg) :
    Except PyError (Bool × Option RejectReason) :=
  match msg with
  | none => .ok (false, some .receivedNull)
  | some m =>
      let key := (m.viewNo, m.ppSeqNo)
      if !rmContains st.requested_messages key then
        .ok (false, some .notRequested)
      else if has_already_ordered st.data m.viewNo m.ppSeqNo then
        .ok (false, some .alreadyOrdered)
      else
        let stashed_data := (rmGet st.requested_messages key).getD none
        let curr_data : Option StashData :=
          if m.kind = .prePrepare ∨ m.kind = .prepare then
            some (m.digest, m.stateRootHash, m.txnRootHash)
          else
            none
        if stashed_data = none ∨ curr_data = stashed_data then
          .ok (true, none)
        else
          .error (.incorrectMessage .unexpectedState)

/-- _validate_message_rep with subclass dispatch: PreprepareHandler
overrides it, first calling the base method, then reading
(msg.viewNo, msg.ppSeqNo) — an AttributeError when msg is None — and, when
the base result is True, scanning self._data.preprepared for an entry
with the same key, in which case it returns (False, "already received
msg ...").  PrepareHandler and CommitHandler inherit the base method. -/
def validate_message_rep (kind : MsgKind) (st : HandlerState)
    (msg : Option ThreePCMsg) : Except PyError (Bool × Option RejectReason) :=
  match kind with
  | .prePrepare =>
      match validate_message_rep_base st msg with
      | .error e => .error e
      | .ok (result, error_msg) =>
          match msg with
          | none => .error .attributeError
          | some m =>
              if result && st.data.preprepared.any
                  (fun pp => decide ((pp.view_no, pp.pp_seq_no)
                                       = (m.viewNo, m.ppSeqNo))) then
                .ok (false, some .alreadyReceived)
              else
                .ok (result, error_msg)
  | _ => validate_message_rep_base st msg

/-- ThreePhaseMessagesHandler.get_3pc_message.  The source extracts
params from msg.params, logs, and then runs
self._validate_message_rep(**params) with params holding the keys
inst_id, view_no and pp_seq_no.  _validate_message_rep is declared as
def _validate_message_rep(self, msg): it accepts one positional argument
and no keyword arguments of those names, so under Python semantics this
call raises TypeError for every input.  The call stands before the
try/except TypeError block, which guards only self._create, so the
TypeError escapes the method uncaught; the rest of the body — the call to
_create and the translation of its TypeError and
MismatchedMessageReplyException into IncorrectMessageForHandlingException
— is dead code.  The second component of the result is the
requested_messages state, which the method never touches. -/
def get_3pc_message (kind : MsgKind) (st : HandlerState) (msg : MessageRep)
    (frm : String) : Except PyError ThreePCMsg × HandlerState :=
  (.error .typeError, st)

/-- ThreePhaseMessagesHandler.prepare_msg_to_request: if the key is
already in requested_messages, log and return None; otherwise record the
stash binding under the key and return the request payload dict built
from the shared data's inst_id and the key's components. -/
def prepare_msg_to_request (st : HandlerState) (three_pc_key : Int × Int)
    (stash_data : Option StashData) : Option ReqPayload × HandlerState :=
  if rmContains st.requested_messages three_pc_key then
    (none, st)
  else
    (some ⟨st.data.inst_id, three_pc_key.1, three_pc_key.2⟩,
     { st with requested_messages :=
         (three_pc_key, stash_data) :: st.requested_messages })

/-- The per-subclass _get_reply bodies of PrepareHandler and
CommitHandler, which are identical up to the store consulted: if the key
is in the store, take the stored message and return it exactly when the
tally has this replica's own vote; otherwise return None. -/
def lookup_vote_reply (store : (Int × Int) → Option VoteTally) (name : String)
    (v s : Int) : Option ThreePCMsg :=
  match store (v, s) with
  | some t => if hasVoteFrom t name then some t.msg else none
  | none => none

/-- The _get_reply methods of the three subclasses, dispatched on kind.
The params values reaching this method are the raw wire values; a dict of
the shared data keyed by int pairs returns nothing for a key built from a
non-int value. -/
def get_reply (kind : MsgKind) (d : ConsensusSharedData)
    (view_no pp_seq_no : PyVal) : Option ThreePCMsg :=
  match view_no, pp_seq_no with
  | .vint v, .vint s =>
      match kind with
      | .prePrepare => d.sent_preprepares (v, s)
      | .prepare => lookup_vote_reply d.prepares d.name v s
      | .commit => lookup_vote_reply d.commits d.name v s
  | _, _ => none

/-- ThreePhaseMessagesHandler.process_message_req: extract the params,
raise IncorrectMessageForHandlingException("cannot serve request") when
_validate fails, otherwise return _get_reply.  The second component is
the untouched requested_messages state. -/
def process_message_req (kind : MsgKind) (st : HandlerState)
    (req : ReqParams) : Except PyError (Option ThreePCMsg) × HandlerState :=
  if validate st.data req.inst_id req.view_no req.pp_seq_no then
    (.ok (get_reply kind st.data req.view_no req.pp_seq_no), st)
  else
    (.error (.incorrectMessage .cannotServe), st)

/-- ThreePhaseMessagesHandler.gc: self.requested_messages.clear(). -/
def gc (st : HandlerState) : HandlerState :=
  { st with requested_messages := [] }

/-! Concrete shared-data values and envelopes used to evaluate the code at
specific inputs. -/

/-- Shared data of a replica at instance 0, view 3, nothing ordered yet,
empty local stores. -/
def dataC1 : ConsensusSharedData :=
  { inst_id := 0, view_no := 3, name := "A", last_ordered_3pc := (0, 0),
    sent_preprepares := fun _ => none, preprepared := [],
    prepares := fun _ => none, commits := fun _ => none }

/-- A prepare handler whose requested_messages dict is empty. -/
def stC1 : HandlerState := { data := dataC1, requested_messages := [] }

/-- A well-formed prepare message for key (3, 1). -/
def mC1 : ThreePCMsg :=
  ⟨.prepare, 0, 3, 1, "d1", "s1", "t1"⟩

/-- A reply envelope carrying mC1 under matching params. -/
def repC1 : MessageRep :=
  { params := { inst_id := .vint 0, view_no := .vint 3, pp_seq_no := .vint 1 },
    msg := some ⟨0, 3, 1, "d1", "s1", "t1"⟩ }

/-- Shared data with last_ordered_3pc = (1, 5). -/
def dataC2 : ConsensusSharedData :=
  { inst_id := 0, view_no := 1, name := "A", last_ordered_3pc := (1, 5),
    sent_preprepares := fun _ => none, preprepared := [],
    prepares := fun _ => none, commits := fun _ => none }

/-- A prepare handler that has requested keys (1,3), (1,5) and (1,6) with
no stash bindings. -/
def stC2 : HandlerState :=
  { data := dataC2,
    requested_messages := [((1, 3), none), ((1, 5), none), ((1, 6), none)] }

/-- A prepare message for key (1, 3). -/
def mC2a : ThreePCMsg := ⟨.prepare, 0, 1, 3, "d3", "s3", "t3"⟩

/-- A prepare message for key (1, 5). -/
def mC2b : ThreePCMsg := ⟨.prepare, 0, 1, 5, "d5", "s5", "t5"⟩

/-- A prepare message for key (1, 6). -/
def mC2c : ThreePCMsg := ⟨.prepare, 0, 1, 6, "d6", "s6", "t6"⟩

/-- A reply envelope carrying mC2a under matching params. -/
def repC2 : MessageRep :=
  { params := { inst_id := .vint 0, view_no := .vint 1, pp_seq_no := .vint 3 },
    msg := some ⟨0, 1, 3, "d3", "s3", "t3"⟩ }

/-- Shared data with last_ordered_3pc = (0, 5). -/
def dataC3 : ConsensusSharedData :=
  { inst_id := 0, view_no := 1, name := "A", last_ordered_3pc := (0, 5),
    sent_preprepares := fun _ => none, preprepared := [],
    prepares := fun _ => none, commits := fun _ => none }

/-- A prepare handler that has requested key (1,7) with the stash binding
(dA, sA, tA) and key (1,9) with no binding. -/
def stC3 : HandlerState :=
  { data := dataC3,
    requested_messages :=
      [((1, 7), some (("dA", "sA", "tA") : StashData)), ((1, 9), none)] }

/-- A prepare message for key (1,7) whose triple matches the binding. -/
def mC3good : ThreePCMsg := ⟨.prepare, 0, 1, 7, "dA", "sA", "tA"⟩

/-- A prepare message for key (1,7) with a differing digest. -/
def mC3bad : ThreePCMsg := ⟨.prepare, 0, 1, 7, "dB", "sA", "tA"⟩

/-- A prepare message for key (1,9), where no binding was recorded. -/
def mC3free : ThreePCMsg := ⟨.prepare, 0, 1, 9, "dZ", "sZ", "tZ"⟩

/-- A reply envelope carrying mC3good under matching params. -/
def repC3 : MessageRep :=
  { params := { inst_id := .vint 0, view_no := .vint 1, pp_seq_no := .vint 7 },
    msg := some ⟨0, 1, 7, "dA", "sA", "tA"⟩ }

/-- Shared data of a replica at instance 0, view 2. -/
def dataC4 : ConsensusSharedData :=
  { inst_id := 0, view_no := 2, name := "A", last_ordered_3pc := (0, 0),
    sent_preprepares := fun _ => none, preprepared := [],
    prepares := fun _ => none, commits := fun _ => none }

/-- A pre-prepare handler that has requested key (2,9) with no binding. -/
def stC4 : HandlerState :=
  { data := dataC4, requested_messages := [((2, 9), none)] }

/-- Raw message fields whose embedded ids match the requested
(inst_id, view_no, pp_seq_no) = (0, 2, 9). -/
def fC4good : MsgFields := ⟨0, 2, 9, "d9", "s9", "t9"⟩

/-- Raw message fields whose embedded instId (1) differs from the
requested inst_id (0). -/
def fC4bad : MsgFields := ⟨1, 2, 9, "d9", "s9", "t9"⟩

/-- A reply envelope carrying fC4bad under params (0, 2, 9). -/
def repC4 : MessageRep :=
  { params := { inst_id := .vint 0, view_no := .vint 2, pp_seq_no := .vint 9 },
    msg := some fC4bad }

/-- Shared data whose preprepared candidate set holds key (1, 4). -/
def dataC5 : ConsensusSharedData :=
  { inst_id := 0, view_no := 1, name := "A", last_ordered_3pc := (0, 0),
    sent_preprepares := fun _ => none, preprepared := [⟨1, 4⟩],
    prepares := fun _ => none, commits := fun _ => none }

/-- A pre-prepare handler that has requested keys (1,4) and (1,8) with no
bindings. -/
def stC5 : HandlerState :=
  { data := dataC5, requested_messages := [((1, 4), none), ((1, 8), none)] }

/-- A pre-prepare message for key (1,4), which is in preprepared. -/
def mC5a : ThreePCMsg := ⟨.prePrepare, 0, 1, 4, "d4", "s4", "t4"⟩

/-- A pre-prepare message for key (1,8), which is not in preprepared. -/
def mC5b : ThreePCMsg := ⟨.prePrepare, 0, 1, 8, "d8", "s8", "t8"⟩

/-- A reply envelope carrying mC5a under matching params. -/
def repC5 : MessageRep :=
  { params := { inst_id := .vint 0, view_no := .vint 1, pp_seq_no := .vint 4 },
    msg := some ⟨0, 1, 4, "d4", "s4", "t4"⟩ }

/-! The claim theorems for the reply path. -/

/-- C1: the claim says a reply whose key is not in requested_messages is
rejected by get_3pc_message with the non-fatal "unsolicited or
already-completed" outcome.  On the code, get_3pc_message instead raises
an uncaught TypeError for every reply (the _validate_message_rep(**params)
call), so the claimed non-fatal rejection never happens — even though the
_validate_message_rep method itself, invoked as defined, does flag the
key-not-requested condition exactly as the claim describes. -/
theorem c1_unsolicited_reply_not_rejected :
    get_3pc_message .prepare stC1 repC1 "B" = (.error .typeError, stC1) ∧
    validate_message_rep .prepare stC1 (some mC1)
      = .ok (false, some .notRequested) :=
  ⟨rfl, rfl⟩

/-- C2: the claim says get_3pc_message rejects as stale every reply whose
key is at or below last_ordered_3pc and lets strictly greater keys pass
this check.  On the code, get_3pc_message raises an uncaught TypeError for
every reply, so the stale rejection outcome never happens; the
_validate_message_rep method itself, invoked as defined with
last_ordered_3pc = (1,5), does reject keys (1,3) and (1,5) as already
ordered and passes key (1,6), as the claim describes. -/
theorem c2_stale_reply_not_rejected :
    get_3pc_message .prepare stC2 repC2 "B" = (.error .typeError, stC2) ∧
    validate_message_rep .prepare stC2 (some mC2a)
      = .ok (false, some .alreadyOrdered) ∧
    validate_message_rep .prepare stC2 (some mC2b)
      = .ok (false, some .alreadyOrdered) ∧
    validate_message_rep .prepare stC2 (some mC2c) = .ok (true, none) ∧
    has_already_ordered dataC2 1 6 = false :=
  ⟨rfl, rfl, rfl, rfl, rfl⟩

/-- C3: the claim says get_3pc_message accepts (with respect to the
stash-binding check) a pre-prepare or prepare reply whose
(digest, stateRootHash, txnRootHash) triple equals the recorded binding,
rejects a differing triple as a content mismatch, and never rejects when
no binding was recorded.  On the code, get_3pc_message raises an uncaught
TypeError for every reply, the matching one included, so the claimed
acceptance never happens; the _validate_message_rep method itself, invoked
as defined, implements exactly the described check. -/
theorem c3_content_binding_not_enforced :
    get_3pc_message .prepare stC3 repC3 "B" = (.error .typeError, stC3) ∧
    validate_message_rep .prepare stC3 (some mC3good) = .ok (true, none) ∧
    validate_message_rep .prepare stC3 (some mC3bad)
      = .error (.incorrectMessage .unexpectedState) ∧
    validate_message_rep .prepare stC3 (some mC3free) = .ok (true, none) :=
  ⟨rfl, rfl, rfl, rfl⟩

/-- C4: the claim says get_3pc_message rejects a reply whose materialized
message's embedded (instId, viewNo, ppSeqNo) differ from the key it was
received under, and returns the materialized message when they match.  On
the code, get_3pc_message raises an uncaught TypeError for every reply
before ever calling _create, so neither the claimed rejection nor the
claimed return happens; the _create method itself, invoked as defined,
implements exactly the described key-consistency check. -/
theorem c4_key_consistency_not_enforced :
    get_3pc_message .prePrepare stC4 repC4 "B" = (.error .typeError, stC4) ∧
    create .prePrepare (some fC4bad) (.vint 0) (.vint 2) (.vint 9)
      = .error .mismatchedMessageReply ∧
    create .prePrepare (some fC4good) (.vint 0) (.vint 2) (.vint 9)
      = .ok ⟨.prePrepare, 0, 2, 9, "d9", "s9", "t9"⟩ :=
  ⟨rfl, rfl, rfl⟩

/-- C5: the claim says a pre-prepare reply that passes the base checks is
rejected by the handler when its key is already in the preprepared
candidate set and is not rejected by this kind-specific check otherwise.
On the code, get_3pc_message raises an uncaught TypeError for every
reply, so the claimed rejection outcome never happens; the
PreprepareHandler._validate_message_rep override itself, invoked as
defined, implements exactly the described check. -/
theorem c5_redundant_preprepare_not_rejected :
    get_3pc_message .prePrepare stC5 repC5 "B" = (.error .typeError, stC5) ∧
    validate_message_rep .prePrepare stC5 (some mC5a)
      = .ok (false, some .alreadyReceived) ∧
    validate_message_rep .prePrepare stC5 (some mC5b) = .ok (true, none) :=
  ⟨rfl, rfl, rfl⟩

/-! Helper lemmas shared by the remaining claims. -/

/-- The request-side validity check holds exactly when the params carry
this replica's instance id, its current view number, and a positive
integer sequence number. -/
theorem validate_eq_true_iff (d : ConsensusSharedData) (a b c : PyVal) :
    validate d a b c = true ↔
      (a = .vint d.inst_id ∧ b = .vint d.view_no ∧
       ∃ n : Int, c = .vint n ∧ 0 < n) := by
  cases a <;> cases b <;> cases c <;>
    simp [validate, pyEqInt, pyIsInt, pyGtZero, and_assoc]

/-- The shared prepare/commit lookup returns a message exactly when the
store has a tally for the key, the message is the tally's stored one, and
the given replica identity is among the voters. -/
theorem lookup_vote_reply_some_iff (store : (Int × Int) → Option VoteTally)
    (name : String) (v s : Int) (m : ThreePCMsg) :
    lookup_vote_reply store name v s = some m ↔
      ∃ t, store (v, s) = some t ∧ m = t.msg ∧ name ∈ t.voters := by
  unfold lookup_vote_reply
  cases hp : store (v, s) with
  | none => simp
  | some t =>
      by_cases hv : name ∈ t.voters
      · simp [hasVoteFrom, hv, eq_comm]
      · simp [hasVoteFrom, hv]

/-! Shared concrete data for the remaining witnesses. -/

/-- A prepare vote tally whose voters are B and C but not A. -/
def tallyW : VoteTally :=
  { msg := ⟨.prepare, 0, 1, 2, "dw", "sw", "tw"⟩, voters := ["B", "C"] }

/-- Shared data of replica A at instance 0, view 1, with one sent
pre-prepare at key (1,2) and a prepare tally at key (1,2) holding only
other replicas' votes. -/
def dataW : ConsensusSharedData :=
  { inst_id := 0, view_no := 1, name := "A", last_ordered_3pc := (0, 0),
    sent_preprepares := fun p =>
      if p = ((1 : Int), (2 : Int)) then
        some ⟨.prePrepare, 0, 1, 2, "dp", "sp", "tp"⟩
      else none,
    preprepared := [],
    prepares := fun p => if p = ((1 : Int), (2 : Int)) then some tallyW else none,
    commits := fun _ => none }

/-- A handler over dataW that has requested key (1,7) with the binding
(dA, sA, tA). -/
def stW : HandlerState :=
  { data := dataW,
    requested_messages := [((1, 7), some (("dA", "sA", "tA") : StashData))] }

/-- Valid request params for instance 0, view 1, sequence number 2. -/
def reqW : ReqParams :=
  { inst_id := .vint 0, view_no := .vint 1, pp_seq_no := .vint 2 }

/-- A reply envelope with reqW params and no embedded message. -/
def repW : MessageRep := { params := reqW, msg := none }

/-! The claim theorems for the request side and the table. -/

/-- C6: for a key not yet in requested_messages, a first
prepare_msg_to_request returns the request payload, a second call for the
same key before any gc returns nothing, and after gc a call for the key
returns the payload again. -/
theorem c6_prepare_request_idempotent_gc_resets (st : HandlerState)
    (k : Int × Int) (d1 d2 d3 : Option StashData)
    (h : rmContains st.requested_messages k = false) :
    (prepare_msg_to_request st k d1).1 = some ⟨st.data.inst_id, k.1, k.2⟩ ∧
    (prepare_msg_to_request (prepare_msg_to_request st k d1).2 k d2).1
      = none ∧
    (prepare_msg_to_request
        (gc (prepare_msg_to_request
              (prepare_msg_to_request st k d1).2 k d2).2) k d3).1
      = some ⟨st.data.inst_id, k.1, k.2⟩ := by
  have h2 : (rmGet st.requested_messages k).isSome = false := h
  refine ⟨?_, ?_, ?_⟩ <;>
    simp [prepare_msg_to_request, gc, rmContains, rmGet, h2]

/-- C6 witness: the three-step scenario evaluated at key (2,9) on a
handler that has not requested it. -/
theorem c6_witness :
    rmContains stW.requested_messages (2, 9) = false ∧
    ((prepare_msg_to_request stW (2, 9) none).1 = some ⟨0, 2, 9⟩ ∧
     (prepare_msg_to_request (prepare_msg_to_request stW (2, 9) none).2 (2, 9)
        (some (("dX", "sX", "tX") : StashData))).1 = none ∧
     (prepare_msg_to_request
         (gc (prepare_msg_to_request
               (prepare_msg_to_request stW (2, 9) none).2 (2, 9)
               (some (("dX", "sX", "tX") : StashData))).2) (2, 9) none).1
       = some ⟨0, 2, 9⟩) :=
  ⟨rfl, c6_prepare_request_idempotent_gc_resets stW (2, 9) none
    (some (("dX", "sX", "tX") : StashData)) none rfl⟩

/-- C7: the pre-prepare responder lookup returns exactly the
sent_preprepares entry for the key, and the prepare and commit lookups
return the stored tally message exactly when this replica's own name is
among the voters of that key's tally. -/
theorem c7_get_reply_self_corroborated (d : ConsensusSharedData)
    (v s : Int) :
    get_reply .prePrepare d (.vint v) (.vint s) = d.sent_preprepares (v, s) ∧
    (∀ m : ThreePCMsg,
      get_reply .prepare d (.vint v) (.vint s) = some m ↔
        ∃ t, d.prepares (v, s) = some t ∧ m = t.msg ∧ d.name ∈ t.voters) ∧
    (∀ m : ThreePCMsg,
      get_reply .commit d (.vint v) (.vint s) = some m ↔
        ∃ t, d.commits (v, s) = some t ∧ m = t.msg ∧ d.name ∈ t.voters) :=
  ⟨rfl,
   fun m => lookup_vote_reply_some_iff d.prepares d.name v s m,
   fun m => lookup_vote_reply_some_iff d.commits d.name v s m⟩

/-- C7 witness: on dataW the prepare tally for key (1,2) holds votes from
B and C but not from A, and the lookup returns nothing, while the
sent-pre-prepare for (1,2) is served as stored. -/
theorem c7_witness :
    get_reply .prepare dataW (.vint 1) (.vint 2) = none ∧
    dataW.prepares (1, 2) = some tallyW ∧
    get_reply .prePrepare dataW (.vint 1) (.vint 2)
      = dataW.sent_preprepares (1, 2) := by
  refine ⟨?_, rfl, (c7_get_reply_self_corroborated dataW 1 2).1⟩
  have h := (c7_get_reply_self_corroborated dataW 1 2).2.1
  cases hm : get_reply .prepare dataW (.vint 1) (.vint 2) with
  | none => rfl
  | some m =>
      exfalso
      rcases (h m).mp hm with ⟨t, ht, _, hv⟩
      rw [show dataW.prepares (1, 2) = some tallyW from rfl] at ht
      injection ht with ht2
      rw [← ht2] at hv
      exact absurd hv (by decide)

/-- C8: process_message_req raises the "cannot serve request" outcome
exactly when the request params fail the validity condition (instance id
equal to this replica's, view number equal to the current view, positive
integer sequence number), and on every valid request it returns the
specialization lookup's value with no error. -/
theorem c8_process_message_req_validity (kind : MsgKind) (st : HandlerState)
    (req : ReqParams) :
    (process_message_req kind st req
        = (.error (.incorrectMessage .cannotServe), st) ↔
      ¬ (req.inst_id = .vint st.data.inst_id ∧
         req.view_no = .vint st.data.view_no ∧
         ∃ n : Int, req.pp_seq_no = .vint n ∧ 0 < n)) ∧
    ((req.inst_id = .vint st.data.inst_id ∧
      req.view_no = .vint st.data.view_no ∧
      ∃ n : Int, req.pp_seq_no = .vint n ∧ 0 < n) →
      process_message_req kind st req
        = (.ok (get_reply kind st.data req.view_no req.pp_seq_no), st)) := by
  have hiff := validate_eq_true_iff st.data req.inst_id req.view_no req.pp_seq_no
  by_cases hv : validate st.data req.inst_id req.view_no req.pp_seq_no = true
  · have hp : process_message_req kind st req
        = (.ok (get_reply kind st.data req.view_no req.pp_seq_no), st) := by
      simp [process_message_req, hv]
    refine ⟨?_, fun _ => hp⟩
    rw [hp]
    simp only [hiff] at hv
    simp [hv]
  · have hp : process_message_req kind st req
        = (.error (.incorrectMessage .cannotServe), st) := by
      simp [process_message_req, hv]
    have hnot : ¬ (req.inst_id = .vint st.data.inst_id ∧
        req.view_no = .vint st.data.view_no ∧
        ∃ n : Int, req.pp_seq_no = .vint n ∧ 0 < n) :=
      fun hA => hv (hiff.mpr hA)
    exact ⟨by simp [hp, hnot], fun hA => absurd hA hnot⟩

/-- C8 witness: the valid request reqW on stW is answered with the lookup
value and no error. -/
theorem c8_witness :
    process_message_req .prepare stW reqW
      = (.ok (get_reply .prepare stW.data reqW.view_no reqW.pp_seq_no),
         stW) :=
  (c8_process_message_req_validity .prepare stW reqW).2
    ⟨rfl, rfl, 2, rfl, by decide⟩

/-- C9: neither the reply path nor the request path ever changes
requested_messages; prepare_msg_to_request either leaves the table
unchanged or conses the new entry onto it, and gc empties it. -/
theorem c9_requested_messages_frame (kind : MsgKind) (st : HandlerState)
    (rep : MessageRep) (frm : String) (req : ReqParams) (k : Int × Int)
    (d : Option StashData) :
    (get_3pc_message kind st rep frm).2 = st ∧
    (process_message_req kind st req).2 = st ∧
    ((prepare_msg_to_request st k d).2.requested_messages
        = st.requested_messages ∨
      (prepare_msg_to_request st k d).2.requested_messages
        = (k, d) :: st.requested_messages) ∧
    (gc st).requested_messages = [] := by
  refine ⟨rfl, ?_, ?_, rfl⟩
  · by_cases hc : validate st.data req.inst_id req.view_no req.pp_seq_no = true
    · simp [process_message_req, hc]
    · simp [process_message_req, hc]
  · by_cases hc : rmContains st.requested_messages k = true
    · exact Or.inl (by simp [prepare_msg_to_request, hc])
    · exact Or.inr (by simp [prepare_msg_to_request, hc])

/-- C9 witness: the frame property evaluated on stW with a concrete
envelope, request and key. -/
theorem c9_witness :
    (get_3pc_message .commit stW repW "B").2 = stW ∧
    (process_message_req .commit stW reqW).2 = stW ∧
    ((prepare_msg_to_request stW (3, 3) none).2.requested_messages
        = stW.requested_messages ∨
      (prepare_msg_to_request stW (3, 3) none).2.requested_messages
        = ((3, 3), none) :: stW.requested_messages) ∧
    (gc stW).requested_messages = [] :=
  c9_requested_messages_frame .commit stW repW "B" reqW (3, 3) none

/-- C10: for a key already in requested_messages with stored binding d1,
prepare_msg_to_request with any new binding returns nothing, leaves the
whole handler state unchanged, and in particular the stored entry for the
key is still d1. -/
theorem c10_prepare_request_preserves_binding (st : HandlerState)
    (k : Int × Int) (d1 d2 : Option StashData)
    (h : rmGet st.requested_messages k = some d1) :
    (prepare_msg_to_request st k d2).1 = none ∧
    (prepare_msg_to_request st k d2).2 = st ∧
    rmGet (prepare_msg_to_request st k d2).2.requested_messages k
      = some d1 := by
  have hc : rmContains st.requested_messages k = true := by
    simp [rmContains, h]
  refine ⟨?_, ?_, ?_⟩ <;> simp [prepare_msg_to_request, hc, h]

/-- C10 witness: re-requesting key (1,7) on stW with a different binding
returns nothing and keeps the pinned binding (dA, sA, tA). -/
theorem c10_witness :
    rmGet stW.requested_messages (1, 7)
      = some (some (("dA", "sA", "tA") : StashData)) ∧
    ((prepare_msg_to_request stW (1, 7)
        (some (("dX", "sX", "tX") : StashData))).1 = none ∧
     (prepare_msg_to_request stW (1, 7)
        (some (("dX", "sX", "tX") : StashData))).2 = stW ∧
     rmGet (prepare_msg_to_request stW (1, 7)
        (some (("dX", "sX", "tX") : StashData))).2.requested_messages (1, 7)
       = some (some (("dA", "sA", "tA") : StashData))) :=
  ⟨rfl, c10_prepare_request_preserves_binding stW (1, 7)
    (some (("dA", "sA", "tA") : StashData))
    (some (("dX", "sX", "tX") : StashData)) rfl⟩

end MsgReq
